import Mathlib

/-!
Verification of the KrediApp loan financial-state engine.

The definitions below are a shallow embedding of the TypeScript source:

* calendar utilities and the CurrencyInput/shared helpers in
  src/unnamed/part_002 (formatDateForBrasilia, getTodayInBrasilia,
  calculateDaysOverdue);
* the outstanding-balance calculator calculateCurrentOutstandingBalance in
  src/unnamed/part_001, lines 123-161;
* the loan page logic in src/components/Loans.tsx: getDynamicStatus,
  loansWithStatus, handleReceivePayment, handleAddPromise,
  handleGenerateInstallments and the handleSubmit validation.

Modelling conventions:

* A JS Date value at local midnight is a civil (year, month, day) triple,
  with month 0-based as returned by Date.getMonth.  Comparisons and
  differences of such dates via getTime are modelled by epochDay, a day
  count in the proleptic Gregorian calendar: at local midnight the getTime
  difference in milliseconds is exactly 86400000 times the epochDay
  difference (America/Sao_Paulo currently observes no DST).
* A stored ISO-8601 date or date-time string is a record of the civil date
  written in the string (month 1-based, as printed) plus an optional and
  otherwise opaque time-of-day payload; splitting on "T" and re-parsing at
  local midnight simply discards that payload.
* JS numbers holding money are modelled by the rationals; money values in
  the data model carry two decimal digits.
* The host clock (getTodayInBrasilia) is injected as an explicit reference
  date parameter, and Date.toISOString is modelled for a host clock in the
  Brasilia timezone (UTC-3), where a local midnight maps to 03:00Z of the
  same civil date.
-/

namespace KrediApp

/-- Gregorian leap-year test, as implemented by the JS Date calendar. -/
def isLeap (y : Int) : Bool :=
  (y % 4 == 0 && y % 100 != 0) || y % 400 == 0

/-- Number of days of the 0-based month m of year y in the JS Date calendar.
Only ever evaluated for m between 0 and 11. -/
def daysInMonth (y m : Int) : Int :=
  if m = 1 then (if isLeap y then 29 else 28)
  else if m = 3 ∨ m = 5 ∨ m = 8 ∨ m = 10 then 30
  else 31

/-- Days of year y that precede its 0-based month m (for m between 0 and 11). -/
def daysBeforeMonth (y m : Int) : Int :=
  (if m ≤ 0 then 0
   else if m = 1 then 31
   else if m = 2 then 59
   else if m = 3 then 90
   else if m = 4 then 120
   else if m = 5 then 151
   else if m = 6 then 181
   else if m = 7 then 212
   else if m = 8 then 243
   else if m = 9 then 273
   else if m = 10 then 304
   else 334) +
  (if 2 ≤ m ∧ isLeap y then 1 else 0)

/-- Proleptic Gregorian leap years in the interval from year 0 (inclusive) to
year y (exclusive); counts negatively for y below 0. -/
def leapsBefore (y : Int) : Int :=
  (y + 3) / 4 - (y + 99) / 100 + (y + 399) / 400

/-- A JS Date value at local midnight: a civil date with 0-based month, the
fields being what getFullYear, getMonth and getDate return. -/
structure JSDate where
  year : Int
  month : Int
  day : Int
  deriving DecidableEq

/-- Date.getTime scaled down by 86400000: the day number of a local-midnight
date in the proleptic Gregorian calendar.  Date order and day differences in
the source are getTime order and scaled getTime differences, hence epochDay
order and epochDay differences here. -/
def epochDay (d : JSDate) : Int :=
  365 * d.year + leapsBefore d.year + daysBeforeMonth d.year d.month + (d.day - 1)

/-- Date.setMonth on a normalized local-midnight date (day between 1 and 31):
the target month index is floor-normalized into the year; a day that does not
exist in the target month overflows into the following month, exactly as the
JS Date normalizes it (it can never overflow further, since the excess is at
most 31 - 28 = 3 days). -/
def setMonthAdd (dt : JSDate) (M : Int) : JSDate :=
  let y := dt.year + M / 12
  let m := M % 12
  if dt.day ≤ daysInMonth y m then ⟨y, m, dt.day⟩
  else if m = 11 then ⟨y + 1, 0, dt.day - daysInMonth y m⟩
  else ⟨y, m + 1, dt.day - daysInMonth y m⟩

/-- Date.setDate(0): move to the last day of the previous month. -/
def setDateZero (dt : JSDate) : JSDate :=
  if dt.month = 0 then ⟨dt.year - 1, 11, 31⟩
  else ⟨dt.year, dt.month - 1, daysInMonth dt.year (dt.month - 1)⟩

/-- Model of a stored ISO-8601 date or date-time string: the civil date written
in the string, with month 1-based as printed, plus an optional and otherwise
opaque time-of-day payload (the part after "T", if any). -/
structure ISODateStr where
  y : Int
  m : Int
  d : Int
  time : Option Int
  deriving DecidableEq

/-- new Date(s.split("T")[0] + "T00:00:00"): parse the date part of a stored
string at local midnight, discarding any time-of-day component. -/
def parseAtMidnight (s : ISODateStr) : JSDate :=
  ⟨s.y, s.m - 1, s.d⟩

/-- Date.toISOString on a local-midnight date, for a host clock in the Brasilia
timezone (UTC-3): the civil date is preserved and a T03:00:00.000Z time
component is recorded. -/
def toISOString (dt : JSDate) : ISODateStr :=
  ⟨dt.year, dt.month + 1, dt.day, some 3⟩

/-- calculateDaysOverdue (src/unnamed/part_002, lines 47-65).  none models the
empty string; today is the value of getTodayInBrasilia(), injected as a
parameter.  Math.floor of the millisecond difference over one day is exact
here because both dates are local midnights. -/
def calculateDaysOverdue (isoDueDateString : Option ISODateStr) (today : JSDate) : Int :=
  match isoDueDateString with
  | none => 0
  | some s =>
    let dueDate := parseAtMidnight s
    if epochDay today ≤ epochDay dueDate then 0
    else max 0 (epochDay today - epochDay dueDate)

/-- LoanStatus from the types module: "pending" | "paid" | "overdue". -/
inductive LoanStatus
  | pending
  | paid
  | overdue
  deriving DecidableEq

/-- The status of one installment: "pending" | "paid". -/
inductive InstStatus
  | pending
  | paid
  deriving DecidableEq

/-- LoanModality from the types module.  single is "Pagamento Unico (Principal
+ Juros)", monthly is "Juros Mensal (+ Principal no final)", installment is
"Parcelado (Principal + Juros em X vezes)". -/
inductive LoanModality
  | single
  | monthly
  | installment
  deriving DecidableEq

/-- InstallmentDetail from the types module. -/
structure InstallmentDetail where
  installment_number : Nat
  amount : ℚ
  due_date : ISODateStr
  status : InstStatus
  payment_date : Option ISODateStr
  amount_paid : Option ℚ
  deriving DecidableEq

/-- One promise_history entry.  Free-text notes are opaque identifiers. -/
structure PromiseEntry where
  date : ISODateStr
  note : Nat
  promised_due_date : Option ISODateStr
  deriving DecidableEq

/-- One due_date_history entry. -/
structure DueDateChange where
  old_due_date : ISODateStr
  new_due_date : ISODateStr
  change_date : ISODateStr
  deriving DecidableEq

/-- One interest_payments_history entry. -/
structure InterestPayment where
  date : ISODateStr
  amount_paid : ℚ
  deriving DecidableEq

/-- The Loan entity from the types module.  String identifiers (id, clientId,
account_id, observation) are opaque and modelled by naturals; optional JS
fields are Options, with the history arrays defaulting to the empty list
(the source always reads them through "|| []" or optional chaining). -/
structure Loan where
  id : Nat
  clientId : Nat
  account_id : Nat
  amount_borrowed : ℚ
  amount_to_receive : ℚ
  interest_rate : ℚ
  daily_late_fee_amount : ℚ
  date : ISODateStr
  due_date : ISODateStr
  payment_date : Option ISODateStr
  status : LoanStatus
  modality : LoanModality
  installments : Option Nat
  installments_details : Option (List InstallmentDetail)
  promise_history : List PromiseEntry
  due_date_history : List DueDateChange
  interest_payments_history : List InterestPayment
  observation : Nat
  is_in_negotiation : Bool
  is_archived : Bool
  deriving DecidableEq

/-- The result record of getDynamicStatus. -/
structure DynStatus where
  effectiveStatus : LoanStatus
  isOverdue : Bool
  isUrgent : Bool
  deriving DecidableEq

/-- The ".some" callback inside getDynamicStatus: an installment is counted
when its status is "pending" and its parsed due date is before today. -/
def anyPendingInstallmentOverdue (ds : List InstallmentDetail) (today : JSDate) : Bool :=
  ds.any fun i =>
    decide (i.status = InstStatus.pending) &&
    decide (epochDay (parseAtMidnight i.due_date) < epochDay today)

/-- The guard "loan.modality === Parcelado && loan.installments_details"
followed by the isAnyOverdue check, in getDynamicStatus.  An undefined
details field (none) skips the check; an empty array is truthy in JS and
enters it (the .some over it is then false). -/
def installmentOverdueFlag (l : Loan) (today : JSDate) : Bool :=
  match l.installments_details with
  | some ds =>
    decide (l.modality = LoanModality.installment) && anyPendingInstallmentOverdue ds today
  | none => false

/-- getDynamicStatus (src/components/Loans.tsx, lines 48-71).  Math.ceil of the
millisecond difference over one day is exact for local midnights, so diffDays
is the epochDay difference.  The source computes a local isUrgent flag but
returns isUrgent: false on its final path, and this model returns what the
source returns. -/
def getDynamicStatus (l : Loan) (today : JSDate) : DynStatus :=
  if l.status = LoanStatus.paid then ⟨LoanStatus.paid, false, false⟩
  else if installmentOverdueFlag l today then ⟨LoanStatus.overdue, true, false⟩
  else
    let diffDays := epochDay (parseAtMidnight l.due_date) - epochDay today
    let isOverdue := decide (diffDays < 0)
    ⟨if isOverdue then LoanStatus.overdue else LoanStatus.pending, isOverdue, false⟩

/-- The isFullyPaid computation of loansWithStatus (src/components/Loans.tsx,
lines 229-233): for installment modality, installments_details?.every(paid),
which is undefined (falsy) when the field is absent; otherwise the stored
status compared with "paid". -/
def isFullyPaid (l : Loan) : Bool :=
  if l.modality = LoanModality.installment then
    match l.installments_details with
    | some ds => ds.all fun i => decide (i.status = InstStatus.paid)
    | none => false
  else decide (l.status = LoanStatus.paid)

/-- The effectiveStatus attached to every loan by loansWithStatus:
isFullyPaid overrides the dynamic status with "paid". -/
def effectiveStatusOf (l : Loan) (today : JSDate) : LoanStatus :=
  if isFullyPaid l then LoanStatus.paid else (getDynamicStatus l today).effectiveStatus

/-- calculateCurrentOutstandingBalance (src/unnamed/part_001, lines 123-161).
The reference date today is the value of getTodayInBrasilia(), injected as a
parameter.  The "(loan.daily_late_fee_amount || 0)" guard is the identity
here since the field is always a number in the model. -/
def calculateCurrentOutstandingBalance (l : Loan) (today : JSDate) : ℚ :=
  if l.status = LoanStatus.paid ∨ l.is_archived = true then 0
  else if l.modality = LoanModality.installment ∧ l.installments_details.isSome then
    (l.installments_details.getD []).foldl
      (fun total inst =>
        if inst.status = InstStatus.paid then total
        else
          total + inst.amount +
            (if epochDay (parseAtMidnight inst.due_date) < epochDay today then
              ((epochDay today - epochDay (parseAtMidnight inst.due_date) : Int) : ℚ) *
                l.daily_late_fee_amount
            else 0))
      0
  else
    (if l.modality = LoanModality.monthly then l.amount_borrowed + l.amount_to_receive
     else l.amount_to_receive) +
      (if epochDay (parseAtMidnight l.due_date) < epochDay today then
        ((epochDay today - epochDay (parseAtMidnight l.due_date) : Int) : ℚ) *
          l.daily_late_fee_amount
      else 0)

/-- Math.floor((amount_to_receive / installments) * 100) / 100: the standard
installment amount, truncated to cents. -/
def standardInstallment (A : ℚ) (n : Nat) : ℚ :=
  ((Int.floor (A / (n : ℚ) * 100) : Int) : ℚ) / 100

/-- parseFloat(x.toFixed(2)): round to two decimal digits, ties upward. -/
def toFixed2 (q : ℚ) : ℚ :=
  ((Int.floor (q * 100 + 1 / 2) : Int) : ℚ) / 100

/-- One due date of the generated schedule (src/components/Loans.tsx, lines
624-631): a copy of the first due date, setMonth(currentMonth + i), then the
clamp "if (getMonth() !== (currentMonth + i) % 12) setDate(0)".  The JS %
on the nonnegative currentMonth + i agrees with the Int % used here. -/
def genDueDate (firstDueDate : JSDate) (i : Nat) : JSDate :=
  let c := setMonthAdd firstDueDate (firstDueDate.month + (i : Int))
  if c.month ≠ (firstDueDate.month + (i : Int)) % 12 then setDateZero c else c

/-- The for loop of handleGenerateInstallments (src/components/Loans.tsx,
lines 618-646): r counts the remaining iterations (the loop index i runs from
0 to n - 1), tot is the mutable totalAllocated.  Every installment before the
last gets the standard amount std and adds it to tot; the last installment
gets A - tot.  Amounts are pushed through parseFloat(toFixed(2)). -/
def generateLoop (A std : ℚ) (n : Nat) (firstDueDate : JSDate) :
    Nat → Nat → ℚ → List InstallmentDetail
  | 0, _, _ => []
  | r + 1, i, tot =>
    ⟨i + 1, toFixed2 (if i = n - 1 then A - tot else std),
      toISOString (genDueDate firstDueDate i), InstStatus.pending, none, none⟩ ::
      generateLoop A std n firstDueDate r (i + 1) (if i = n - 1 then tot else tot + std)

/-- The full schedule produced by the loop of handleGenerateInstallments for
amount A, installment count n and parsed first due date. -/
def generateInstallments (A : ℚ) (n : Nat) (firstDueDate : JSDate) : List InstallmentDetail :=
  generateLoop A (standardInstallment A n) n firstDueDate n 0 0

/-- The form state of the loan modal, a JS object whose fields may all be
absent.  In the source the truthiness checks treat the empty string and the
number 0 like undefined; none models absence or the empty string. -/
structure LoanForm where
  clientId : Option Nat
  account_id : Option Nat
  amount_borrowed : Option ℚ
  amount_to_receive : Option ℚ
  interest_rate : Option ℚ
  daily_late_fee_amount : Option ℚ
  date : Option ISODateStr
  due_date : Option ISODateStr
  status : LoanStatus
  modality : LoanModality
  installments : Option Nat
  installments_details : Option (List InstallmentDetail)
  deriving DecidableEq

/-- The state update of handleGenerateInstallments (src/components/Loans.tsx,
lines 604-655): guard on modality and on truthy installments,
amount_to_receive and due_date; then generate the schedule, reset due_date to
the last generated due date and reset status to pending.  (The confirm dialog
shown when paid installments exist is a caller-side gate and does not change
the state transition.) -/
def handleGenerateInstallments (f : LoanForm) : LoanForm :=
  match f.installments, f.amount_to_receive, f.due_date with
  | some n, some A, some due =>
    if f.modality ≠ LoanModality.installment ∨ n = 0 ∨ A = 0 then f
    else
      let L := generateInstallments A n (parseAtMidnight due)
      { f with installments_details := some L,
               due_date := L.getLast?.map InstallmentDetail.due_date,
               status := LoanStatus.pending }
  | _, _, _ => f

/-- The paymentType argument of handleReceivePayment. -/
inductive PaymentType
  | interest_only
  | full
  deriving DecidableEq

/-- The per-loan update inside handleReceivePayment (src/components/Loans.tsx,
lines 336-372).  The JS truthiness test on installmentNumber is modelled by
getD 0 ≠ 0.  In the first branch the due date is advanced by
setMonth(getMonth() + 1) with no month-end clamp, re-serialized by
toISOString, and the status is recomputed by getDynamicStatus on a copy of
the loan carrying the new due date. -/
def receivePaymentUpdate (l : Loan) (paymentDate : ISODateStr) (amountPaid : ℚ)
    (installmentNumber : Option Nat) (paymentType : Option PaymentType)
    (today : JSDate) : Loan :=
  if l.modality = LoanModality.monthly ∧ paymentType = some PaymentType.interest_only then
    let currentDueDate := parseAtMidnight l.due_date
    let newDueDate := toISOString (setMonthAdd currentDueDate (currentDueDate.month + 1))
    { l with
      interest_payments_history := l.interest_payments_history ++ [⟨paymentDate, amountPaid⟩],
      due_date := newDueDate,
      status := (getDynamicStatus { l with due_date := newDueDate } today).effectiveStatus }
  else if l.modality = LoanModality.installment ∧ installmentNumber.getD 0 ≠ 0 then
    let newDetails := l.installments_details.map fun ds =>
      ds.map fun i =>
        if i.installment_number = installmentNumber.getD 0 then
          { i with status := InstStatus.paid, payment_date := some paymentDate,
                   amount_paid := some amountPaid }
        else i
    let allPaid : Bool :=
      match newDetails with
      | some ds => ds.all fun i => decide (i.status = InstStatus.paid)
      | none => false
    if allPaid then
      { l with installments_details := newDetails, status := LoanStatus.paid,
               payment_date := some paymentDate }
    else { l with installments_details := newDetails }
  else
    { l with status := LoanStatus.paid, payment_date := some paymentDate }

/-- handleReceivePayment applied to the loan collection: the matching loan is
rewritten by receivePaymentUpdate, the rest are untouched. -/
def handleReceivePayment (loans : List Loan) (loanId : Nat) (paymentDate : ISODateStr)
    (amountPaid : ℚ) (installmentNumber : Option Nat) (paymentType : Option PaymentType)
    (today : JSDate) : List Loan :=
  loans.map fun l =>
    if l.id = loanId then
      receivePaymentUpdate l paymentDate amountPaid installmentNumber paymentType today
    else l

/-- handleAddPromise (src/components/Loans.tsx, lines 391-400): the matching
loan gets one new promise_history entry (dated now, with the note and the
promised date) and its due_date overwritten by the promised date; nothing
else changes, and due_date_history in particular is not touched. -/
def handleAddPromise (loans : List Loan) (loanId : Nat) (now : ISODateStr)
    (promiseDate : ISODateStr) (promiseNote : Nat) : List Loan :=
  loans.map fun l =>
    if l.id = loanId then
      { l with promise_history := l.promise_history ++ [⟨now, promiseNote, some promiseDate⟩],
               due_date := promiseDate }
    else l

/-- A transaction as emitted to the Transaction collaborator; the description
string is omitted (opaque), isCredit is true for credit. -/
structure Transaction where
  accountId : Nat
  amount : ℚ
  isCredit : Bool
  date : Option ISODateStr
  deriving DecidableEq

/-- The page state touched by loan creation. -/
structure AppState where
  loans : List Loan
  transactions : List Transaction
  deriving DecidableEq

/-- The validation at the top of handleSubmit (src/components/Loans.tsx, lines
708-721).  The first alert fires on "!clientId || !amount_borrowed ||
!due_date || !account_id": for the numeric amount_borrowed the JS test is
falsy for undefined and for 0 (and for nothing else), modelled by
getD 0 = 0.  The second alert fires for installment modality with an absent
or empty installments_details array. -/
def validateLoanForm (f : LoanForm) : Bool :=
  if f.clientId = none ∨ f.amount_borrowed.getD 0 = 0 ∨ f.due_date = none ∨
      f.account_id = none then false
  else if f.modality = LoanModality.installment ∧ (f.installments_details.getD []).isEmpty then
    false
  else true

/-- The "formData as Loan" cast passed to onSave: fields that may be undefined
are defaulted (their values are irrelevant to the validated fields). -/
def loanOfForm (f : LoanForm) (newId : Nat) : Loan :=
  { id := newId,
    clientId := f.clientId.getD 0,
    account_id := f.account_id.getD 0,
    amount_borrowed := f.amount_borrowed.getD 0,
    amount_to_receive := f.amount_to_receive.getD 0,
    interest_rate := f.interest_rate.getD 0,
    daily_late_fee_amount := f.daily_late_fee_amount.getD 0,
    date := f.date.getD ⟨0, 1, 1, none⟩,
    due_date := f.due_date.getD ⟨0, 1, 1, none⟩,
    payment_date := none,
    status := f.status,
    modality := f.modality,
    installments := f.installments,
    installments_details := f.installments_details,
    promise_history := [],
    due_date_history := [],
    interest_payments_history := [],
    observation := 0,
    is_in_negotiation := false,
    is_archived := false }

/-- The new-loan path of handleSaveLoan (src/components/Loans.tsx, lines
268-300): prepend the new loan and prepend a debit transaction on its account
for amount_borrowed, dated at the loan origination date. -/
def saveNewLoan (f : LoanForm) (st : AppState) (newId : Nat) : AppState :=
  { loans := loanOfForm f newId :: st.loans,
    transactions :=
      ⟨(loanOfForm f newId).account_id, (loanOfForm f newId).amount_borrowed, false, f.date⟩ ::
        st.transactions }

/-- handleSubmit composed with onSave = handleSaveLoan on the new-loan path:
when validation fails only an alert is shown, the state is untouched and the
Bool is false; otherwise the loan and its debit transaction are added. -/
def handleSubmit (f : LoanForm) (st : AppState) (newId : Nat) : AppState × Bool :=
  if validateLoanForm f then (saveNewLoan f st newId, true) else (st, false)

/-- A sample loan record shared by the concrete witnesses below. -/
def baseLoan : Loan :=
  { id := 1,
    clientId := 1,
    account_id := 1,
    amount_borrowed := 1000,
    amount_to_receive := 1100,
    interest_rate := 10,
    daily_late_fee_amount := 0,
    date := ⟨2025, 1, 10, none⟩,
    due_date := ⟨2025, 2, 10, none⟩,
    payment_date := none,
    status := LoanStatus.pending,
    modality := LoanModality.single,
    installments := none,
    installments_details := none,
    promise_history := [],
    due_date_history := [],
    interest_payments_history := [],
    observation := 0,
    is_in_negotiation := false,
    is_archived := false }

/-- A sample pending installment shared by the concrete witnesses below. -/
def sampleInstallment : InstallmentDetail :=
  { installment_number := 1,
    amount := 550,
    due_date := ⟨2025, 2, 10, none⟩,
    status := InstStatus.pending,
    payment_date := none,
    amount_paid := none }

/-- A sample installment-modality loan holding exactly sampleInstallment; its
due date equals the single installment due date, as the data-model invariant
requires. -/
def sampleInstallmentLoan : Loan :=
  { baseLoan with
    modality := LoanModality.installment,
    installments_details := some [sampleInstallment] }

/-! Theorems.  Each claim Cn of the specification is settled by the theorem
named in its doc comment; helper lemmas carry no claim names. -/

/-- C4: a loan whose stored status is paid, or whose is_archived flag is set,
has outstanding balance exactly 0 for every reference date, regardless of
modality, installment states or due dates. -/
theorem paid_loan_zero_balance (l : Loan) (today : JSDate)
    (h : l.status = LoanStatus.paid ∨ l.is_archived = true) :
    calculateCurrentOutstandingBalance l today = 0 := by
  unfold calculateCurrentOutstandingBalance
  rw [if_pos h]

/-- Witness for C4: the theorem applied to a concrete paid loan and a concrete
reference date. -/
theorem paid_loan_zero_balance_witness :
    ({ baseLoan with status := LoanStatus.paid } : Loan).status = LoanStatus.paid ∧
      calculateCurrentOutstandingBalance { baseLoan with status := LoanStatus.paid }
        ⟨2025, 4, 1⟩ = 0 :=
  ⟨rfl, paid_loan_zero_balance { baseLoan with status := LoanStatus.paid } ⟨2025, 4, 1⟩
    (Or.inl rfl)⟩

/-- C6: on any stored ISO due-date string, calculateDaysOverdue returns
max(0, referenceDay - dueDay) where the due day is the parsed date part of
the string at local midnight; the time-of-day payload of the string never
influences the result.  In particular the result is 0 whenever the due date
is on or after the reference date. -/
theorem days_overdue_formula (s : ISODateStr) (today : JSDate) :
    calculateDaysOverdue (some s) today =
      max 0 (epochDay today - epochDay (parseAtMidnight s)) ∧
    ∀ t : Option Int,
      calculateDaysOverdue (some ⟨s.y, s.m, s.d, t⟩) today =
        calculateDaysOverdue (some s) today := by
  constructor
  · simp only [calculateDaysOverdue]
    split
    · omega
    · omega
  · intro t
    simp only [calculateDaysOverdue, parseAtMidnight]

/-- C10: calculateDaysOverdue is total and never negative: the empty string
(none) yields 0, every result is nonnegative, and a due date on or after the
reference civil date yields 0. -/
theorem days_overdue_total_nonneg (today : JSDate) :
    calculateDaysOverdue none today = 0 ∧
    (∀ s : ISODateStr, 0 ≤ calculateDaysOverdue (some s) today) ∧
    (∀ s : ISODateStr, epochDay today ≤ epochDay (parseAtMidnight s) →
      calculateDaysOverdue (some s) today = 0) := by
  refine ⟨rfl, ?_, ?_⟩
  · intro s
    simp only [calculateDaysOverdue]
    split
    · omega
    · omega
  · intro s h
    simp only [calculateDaysOverdue]
    rw [if_pos h]

/-- Witness for C10: the theorem applied to a concrete reference date and a
concrete (not yet due) date string, discharging the hypothesis there. -/
theorem days_overdue_total_nonneg_witness :
    calculateDaysOverdue none ⟨2025, 4, 1⟩ = 0 ∧
    0 ≤ calculateDaysOverdue (some ⟨2025, 8, 15, none⟩) ⟨2025, 4, 1⟩ ∧
    calculateDaysOverdue (some ⟨2025, 8, 15, none⟩) ⟨2025, 4, 1⟩ = 0 :=
  ⟨(days_overdue_total_nonneg ⟨2025, 4, 1⟩).1,
   (days_overdue_total_nonneg ⟨2025, 4, 1⟩).2.1 ⟨2025, 8, 15, none⟩,
   (days_overdue_total_nonneg ⟨2025, 4, 1⟩).2.2 ⟨2025, 8, 15, none⟩ (by decide)⟩

/-- C5: schedule due dates clamp at month end.  For a valid first due date,
the i-th generated due date lands in exactly the intended target month
(year + months carried, month (m + i) mod 12): it keeps the start day when
that day exists in the target month and is otherwise clamped to the last day
of that month — it never overflows into the following month. -/
theorem month_end_clamp (first : JSDate) (i : Nat)
    (hm0 : 0 ≤ first.month) (hm1 : first.month < 12)
    (hd0 : 1 ≤ first.day)
    (hd1 : first.day ≤ daysInMonth first.year first.month) :
    genDueDate first i =
      if first.day ≤
          daysInMonth (first.year + (first.month + (i : Int)) / 12)
            ((first.month + (i : Int)) % 12) then
        ⟨first.year + (first.month + (i : Int)) / 12, (first.month + (i : Int)) % 12,
          first.day⟩
      else
        ⟨first.year + (first.month + (i : Int)) / 12, (first.month + (i : Int)) % 12,
          daysInMonth (first.year + (first.month + (i : Int)) / 12)
            ((first.month + (i : Int)) % 12)⟩ := by
  obtain ⟨y, m, d⟩ := first
  simp only at hm0 hm1 hd0 hd1
  simp only [genDueDate, setMonthAdd]
  by_cases hfit : d ≤ daysInMonth (y + (m + (i : Int)) / 12) ((m + (i : Int)) % 12)
  · simp only [if_pos hfit]
    have : ¬ ((m + (i : Int)) % 12 ≠ (m + (i : Int)) % 12) := by omega
    simp only [if_neg this]
  · simp only [if_neg hfit]
    have hr0 : 0 ≤ (m + (i : Int)) % 12 := by omega
    by_cases h11 : (m + (i : Int)) % 12 = 11
    · simp only [h11]
      have hne : ((0 : Int) ≠ 11) := by omega
      simp only [if_pos rfl, hne, if_pos, setDateZero]
      have : daysInMonth (y + (m + (i : Int)) / 12) 11 = 31 := by
        simp [daysInMonth]
      simp only [this]
      norm_num
    · simp only [if_neg h11]
      have hne : (m + (i : Int)) % 12 + 1 ≠ (m + (i : Int)) % 12 := by omega
      simp only [hne, if_pos, setDateZero]
      have hne0 : ¬ ((m + (i : Int)) % 12 + 1 = 0) := by omega
      simp only [if_neg hne0]
      norm_num

/-- Witness for C5: the theorem applied to the concrete first due date
Jan 31 2025 at i = 1, discharging the hypotheses there; together with the
evaluation of its right-hand side this puts the second due date on
Feb 28 2025, not in March. -/
theorem month_end_clamp_witness :
    genDueDate ⟨2025, 0, 31⟩ 1 = ⟨2025, 1, 28⟩ :=
  (month_end_clamp ⟨2025, 0, 31⟩ 1 (by decide) (by decide) (by decide)
    (by decide)).trans (by decide)

/-- C3: for an installment-modality loan whose due date dominates every
installment due date (the documented data-model invariant: the loan due date
is kept equal to the last installment due date), the derived effective status
is paid when every installment is paid; a stored status of paid also derives
to paid; and otherwise the status is overdue exactly when some pending
installment is due strictly before the reference date, and pending
otherwise. -/
theorem installment_status_derivation (l : Loan) (today : JSDate)
    (ds : List InstallmentDetail)
    (hmod : l.modality = LoanModality.installment)
    (hds : l.installments_details = some ds)
    (hmax : ∀ i ∈ ds,
      epochDay (parseAtMidnight i.due_date) ≤ epochDay (parseAtMidnight l.due_date)) :
    ((∀ i ∈ ds, i.status = InstStatus.paid) →
      effectiveStatusOf l today = LoanStatus.paid) ∧
    (l.status = LoanStatus.paid → effectiveStatusOf l today = LoanStatus.paid) ∧
    (l.status ≠ LoanStatus.paid → ¬ (∀ i ∈ ds, i.status = InstStatus.paid) →
      ((effectiveStatusOf l today = LoanStatus.overdue ↔
          ∃ i ∈ ds, i.status = InstStatus.pending ∧
            epochDay (parseAtMidnight i.due_date) < epochDay today) ∧
       (effectiveStatusOf l today = LoanStatus.pending ↔
          ¬ ∃ i ∈ ds, i.status = InstStatus.pending ∧
            epochDay (parseAtMidnight i.due_date) < epochDay today))) := by
  have hfp : isFullyPaid l = true ↔ ∀ i ∈ ds, i.status = InstStatus.paid := by
    simp [isFullyPaid, hmod, hds, List.all_eq_true]
  have hflag : installmentOverdueFlag l today = true ↔
      ∃ i ∈ ds, i.status = InstStatus.pending ∧
        epochDay (parseAtMidnight i.due_date) < epochDay today := by
    simp [installmentOverdueFlag, hds, hmod, anyPendingInstallmentOverdue, List.any_eq_true]
  refine ⟨?_, ?_, ?_⟩
  · intro hall
    unfold effectiveStatusOf
    rw [if_pos (hfp.mpr hall)]
  · intro hp
    unfold effectiveStatusOf
    by_cases h : isFullyPaid l
    · rw [if_pos h]
    · rw [if_neg h]
      unfold getDynamicStatus
      rw [if_pos hp]
  · intro hnp hnall
    have hfp2 : ¬ (isFullyPaid l = true) := fun h => hnall (hfp.mp h)
    unfold effectiveStatusOf
    rw [if_neg hfp2]
    unfold getDynamicStatus
    rw [if_neg hnp]
    by_cases hov : installmentOverdueFlag l today = true
    · rw [if_pos hov]
      have hex := hflag.mp hov
      exact ⟨⟨fun _ => hex, fun _ => rfl⟩,
        ⟨fun h => absurd h (by decide), fun h => absurd hex h⟩⟩
    · rw [if_neg hov]
      have hnex : ¬ ∃ i ∈ ds, i.status = InstStatus.pending ∧
          epochDay (parseAtMidnight i.due_date) < epochDay today :=
        fun he => hov (hflag.mpr he)
      push_neg at hnall
      obtain ⟨i0, hi0, hst0⟩ := hnall
      have hpend : i0.status = InstStatus.pending := by
        cases h : i0.status
        · rfl
        · exact absurd h hst0
      have hge : epochDay today ≤ epochDay (parseAtMidnight l.due_date) := by
        have h1 : ¬ (epochDay (parseAtMidnight i0.due_date) < epochDay today) :=
          fun hlt => hnex ⟨i0, hi0, hpend, hlt⟩
        have h2 := hmax i0 hi0
        omega
      have hdec : decide (epochDay (parseAtMidnight l.due_date) - epochDay today < 0)
          = false := by
        simp only [decide_eq_false_iff_not]
        omega
      simp only [hdec]
      exact ⟨⟨fun h => absurd h (by decide), fun h => absurd h hnex⟩,
        ⟨fun _ => hnex, fun _ => rfl⟩⟩

/-- Witness for C3: the theorem applied to a concrete installment loan (one
pending installment due Feb 10 2025, reference date Jan 1 2025), discharging
the hypotheses there. -/
theorem installment_status_derivation_witness :
    ((∀ i ∈ [sampleInstallment], i.status = InstStatus.paid) →
      effectiveStatusOf sampleInstallmentLoan ⟨2025, 0, 1⟩ = LoanStatus.paid) ∧
    (sampleInstallmentLoan.status = LoanStatus.paid →
      effectiveStatusOf sampleInstallmentLoan ⟨2025, 0, 1⟩ = LoanStatus.paid) ∧
    (sampleInstallmentLoan.status ≠ LoanStatus.paid →
      ¬ (∀ i ∈ [sampleInstallment], i.status = InstStatus.paid) →
      ((effectiveStatusOf sampleInstallmentLoan ⟨2025, 0, 1⟩ = LoanStatus.overdue ↔
          ∃ i ∈ [sampleInstallment], i.status = InstStatus.pending ∧
            epochDay (parseAtMidnight i.due_date) < epochDay ⟨2025, 0, 1⟩) ∧
       (effectiveStatusOf sampleInstallmentLoan ⟨2025, 0, 1⟩ = LoanStatus.pending ↔
          ¬ ∃ i ∈ [sampleInstallment], i.status = InstStatus.pending ∧
            epochDay (parseAtMidnight i.due_date) < epochDay ⟨2025, 0, 1⟩))) :=
  installment_status_derivation sampleInstallmentLoan ⟨2025, 0, 1⟩ [sampleInstallment]
    rfl rfl (by decide)

/-- Helper: the per-installment accumulation of the outstanding-balance
calculator is monotone in the reference date and in the accumulator. -/
theorem balance_foldl_mono (fee : ℚ) (hfee : 0 ≤ fee) (t1 t2 : JSDate)
    (ht : epochDay t1 ≤ epochDay t2) :
    ∀ (ds : List InstallmentDetail) (a1 a2 : ℚ), a1 ≤ a2 →
      ds.foldl
        (fun total inst =>
          if inst.status = InstStatus.paid then total
          else
            total + inst.amount +
              (if epochDay (parseAtMidnight inst.due_date) < epochDay t1 then
                ((epochDay t1 - epochDay (parseAtMidnight inst.due_date) : Int) : ℚ) * fee
              else 0))
        a1 ≤
      ds.foldl
        (fun total inst =>
          if inst.status = InstStatus.paid then total
          else
            total + inst.amount +
              (if epochDay (parseAtMidnight inst.due_date) < epochDay t2 then
                ((epochDay t2 - epochDay (parseAtMidnight inst.due_date) : Int) : ℚ) * fee
              else 0))
        a2 := by
  intro ds
  induction ds with
  | nil => intro a1 a2 h; simpa using h
  | cons i ds ih =>
    intro a1 a2 h
    simp only [List.foldl_cons]
    apply ih
    by_cases hp : i.status = InstStatus.paid
    · simp only [if_pos hp]; exact h
    · simp only [if_neg hp]
      have hfmono :
          (if epochDay (parseAtMidnight i.due_date) < epochDay t1 then
            ((epochDay t1 - epochDay (parseAtMidnight i.due_date) : Int) : ℚ) * fee
          else 0) ≤
          (if epochDay (parseAtMidnight i.due_date) < epochDay t2 then
            ((epochDay t2 - epochDay (parseAtMidnight i.due_date) : Int) : ℚ) * fee
          else 0) := by
        by_cases h1 : epochDay (parseAtMidnight i.due_date) < epochDay t1
        · have h2 : epochDay (parseAtMidnight i.due_date) < epochDay t2 := by omega
          rw [if_pos h1, if_pos h2]
          apply mul_le_mul_of_nonneg_right _ hfee
          exact_mod_cast by omega
        · rw [if_neg h1]
          by_cases h2 : epochDay (parseAtMidnight i.due_date) < epochDay t2
          · rw [if_pos h2]
            apply mul_nonneg _ hfee
            exact_mod_cast by omega
          · rw [if_neg h2]
      have := add_le_add (add_le_add h (le_refl i.amount)) hfmono
      linarith

/-- C7: for a fixed loan that is neither paid nor archived and has a
nonnegative daily late fee, the outstanding balance is monotone
non-decreasing in the reference date. -/
theorem late_fee_monotonicity (l : Loan) (d1 d2 : JSDate)
    (hs : l.status ≠ LoanStatus.paid) (ha : l.is_archived = false)
    (hfee : 0 ≤ l.daily_late_fee_amount)
    (hd : epochDay d1 ≤ epochDay d2) :
    calculateCurrentOutstandingBalance l d1 ≤ calculateCurrentOutstandingBalance l d2 := by
  unfold calculateCurrentOutstandingBalance
  have hcond : ¬ (l.status = LoanStatus.paid ∨ l.is_archived = true) := by
    rintro (h | h)
    · exact hs h
    · rw [ha] at h; exact absurd h (by decide)
  rw [if_neg hcond, if_neg hcond]
  by_cases hinst : l.modality = LoanModality.installment ∧ l.installments_details.isSome
  · rw [if_pos hinst, if_pos hinst]
    exact balance_foldl_mono l.daily_late_fee_amount hfee d1 d2 hd
      (l.installments_details.getD []) 0 0 (le_refl 0)
  · rw [if_neg hinst, if_neg hinst]
    have hfmono :
        (if epochDay (parseAtMidnight l.due_date) < epochDay d1 then
          ((epochDay d1 - epochDay (parseAtMidnight l.due_date) : Int) : ℚ) *
            l.daily_late_fee_amount
        else 0) ≤
        (if epochDay (parseAtMidnight l.due_date) < epochDay d2 then
          ((epochDay d2 - epochDay (parseAtMidnight l.due_date) : Int) : ℚ) *
            l.daily_late_fee_amount
        else 0) := by
      by_cases h1 : epochDay (parseAtMidnight l.due_date) < epochDay d1
      · have h2 : epochDay (parseAtMidnight l.due_date) < epochDay d2 := by omega
        rw [if_pos h1, if_pos h2]
        apply mul_le_mul_of_nonneg_right _ hfee
        exact_mod_cast by omega
      · rw [if_neg h1]
        by_cases h2 : epochDay (parseAtMidnight l.due_date) < epochDay d2
        · rw [if_pos h2]
          apply mul_nonneg _ hfee
          exact_mod_cast by omega
        · rw [if_neg h2]
    exact add_le_add (le_refl _) hfmono

/-- Witness for C7: the theorem applied to a concrete overdue loan and the
concrete reference dates Mar 1 2025 and Mar 11 2025, discharging the
hypotheses there. -/
theorem late_fee_monotonicity_witness :
    calculateCurrentOutstandingBalance { baseLoan with daily_late_fee_amount := 15 }
        ⟨2025, 2, 1⟩ ≤
      calculateCurrentOutstandingBalance { baseLoan with daily_late_fee_amount := 15 }
        ⟨2025, 2, 11⟩ :=
  late_fee_monotonicity { baseLoan with daily_late_fee_amount := 15 } ⟨2025, 2, 1⟩
    ⟨2025, 2, 11⟩ (by decide) rfl (by norm_num) (by decide)

/-- C8: adding a payment promise appends exactly one promise_history entry
(dated now, with the note and the promised date) to the matching loan and
overwrites its due_date with the promised date, while leaving
due_date_history and every other field of that loan unchanged; loans with a
different id are untouched. -/
theorem add_promise_effect (loans : List Loan) (loanId : Nat)
    (now promiseDate : ISODateStr) (note : Nat) :
    (handleAddPromise loans loanId now promiseDate note).length = loans.length ∧
    ∀ (j : Nat) (l : Loan), loans.get? j = some l →
      ∃ r : Loan, (handleAddPromise loans loanId now promiseDate note).get? j = some r ∧
        (l.id = loanId →
          r.promise_history = l.promise_history ++ [⟨now, note, some promiseDate⟩] ∧
          r.due_date = promiseDate ∧
          r.due_date_history = l.due_date_history ∧
          r.id = l.id ∧ r.clientId = l.clientId ∧ r.account_id = l.account_id ∧
          r.amount_borrowed = l.amount_borrowed ∧
          r.amount_to_receive = l.amount_to_receive ∧
          r.interest_rate = l.interest_rate ∧
          r.daily_late_fee_amount = l.daily_late_fee_amount ∧
          r.date = l.date ∧ r.payment_date = l.payment_date ∧ r.status = l.status ∧
          r.modality = l.modality ∧ r.installments = l.installments ∧
          r.installments_details = l.installments_details ∧
          r.interest_payments_history = l.interest_payments_history ∧
          r.observation = l.observation ∧
          r.is_in_negotiation = l.is_in_negotiation ∧
          r.is_archived = l.is_archived) ∧
        (l.id ≠ loanId → r = l) := by
  constructor
  · simp [handleAddPromise]
  · intro j l hl
    refine ⟨if l.id = loanId then
      { l with promise_history := l.promise_history ++ [⟨now, note, some promiseDate⟩],
               due_date := promiseDate }
      else l, ?_, ?_, ?_⟩
    · unfold handleAddPromise
      rw [List.get?_map, hl]
      rfl
    · intro h
      rw [if_pos h]
      exact ⟨rfl, rfl, rfl, rfl, rfl, rfl, rfl, rfl, rfl, rfl, rfl, rfl, rfl, rfl,
        rfl, rfl, rfl, rfl, rfl, rfl⟩
    · intro h
      rw [if_neg h]

/-- Witness for C8: the theorem applied to a concrete one-loan list,
discharging the get? hypothesis there. -/
theorem add_promise_effect_witness :
    (handleAddPromise [baseLoan] 1 ⟨2025, 2, 1, some 3⟩ ⟨2025, 3, 1, none⟩ 7).length =
      ([baseLoan] : List Loan).length ∧
    ∃ r : Loan,
      (handleAddPromise [baseLoan] 1 ⟨2025, 2, 1, some 3⟩ ⟨2025, 3, 1, none⟩ 7).get? 0 =
        some r ∧
      (baseLoan.id = 1 →
        r.promise_history =
          baseLoan.promise_history ++ [⟨⟨2025, 2, 1, some 3⟩, 7, some ⟨2025, 3, 1, none⟩⟩] ∧
        r.due_date = ⟨2025, 3, 1, none⟩ ∧
        r.due_date_history = baseLoan.due_date_history ∧
        r.id = baseLoan.id ∧ r.clientId = baseLoan.clientId ∧
        r.account_id = baseLoan.account_id ∧
        r.amount_borrowed = baseLoan.amount_borrowed ∧
        r.amount_to_receive = baseLoan.amount_to_receive ∧
        r.interest_rate = baseLoan.interest_rate ∧
        r.daily_late_fee_amount = baseLoan.daily_late_fee_amount ∧
        r.date = baseLoan.date ∧ r.payment_date = baseLoan.payment_date ∧
        r.status = baseLoan.status ∧
        r.modality = baseLoan.modality ∧ r.installments = baseLoan.installments ∧
        r.installments_details = baseLoan.installments_details ∧
        r.interest_payments_history = baseLoan.interest_payments_history ∧
        r.observation = baseLoan.observation ∧
        r.is_in_negotiation = baseLoan.is_in_negotiation ∧
        r.is_archived = baseLoan.is_archived) ∧
      (baseLoan.id ≠ 1 → r = baseLoan) :=
  ⟨(add_promise_effect [baseLoan] 1 ⟨2025, 2, 1, some 3⟩ ⟨2025, 3, 1, none⟩ 7).1,
   (add_promise_effect [baseLoan] 1 ⟨2025, 2, 1, some 3⟩ ⟨2025, 3, 1, none⟩ 7).2 0
     baseLoan rfl⟩

/-- A creation form with a negative principal and every other required field
present (single-payment modality). -/
def negativeAmountForm : LoanForm :=
  { clientId := some 1,
    account_id := some 1,
    amount_borrowed := some (-5),
    amount_to_receive := some 0,
    interest_rate := some 10,
    daily_late_fee_amount := some 1,
    date := some ⟨2025, 1, 10, none⟩,
    due_date := some ⟨2025, 2, 10, none⟩,
    status := LoanStatus.pending,
    modality := LoanModality.single,
    installments := none,
    installments_details := none }

/-- Counterexample to C9 as stated: the claim requires creation to fail when a
positive amount_borrowed is missing, but the truthiness check of handleSubmit
only rejects an absent or zero amount: with amount_borrowed = -5 (and all
other required fields present) the submission succeeds and a loan is added. -/
theorem create_negative_amount_counterexample :
    negativeAmountForm.amount_borrowed = some (-5) ∧ ((-5 : ℚ) < 0) ∧
    (handleSubmit negativeAmountForm ⟨[], []⟩ 1).2 = true ∧
    (handleSubmit negativeAmountForm ⟨[], []⟩ 1).1.loans.length = 1 := by
  refine ⟨rfl, by norm_num, ?_, ?_⟩
  · rfl
  · rfl

/-- C9 (amended): loan creation fails, adding no loan and emitting no
transaction and leaving the state untouched, whenever clientId, due_date or
account_id is missing, or amount_borrowed is absent or zero (the source
tests JS truthiness, so negative amounts are not rejected), or the modality
is installment and no non-empty generated schedule is present. -/
theorem create_validation_guard (f : LoanForm) (st : AppState) (newId : Nat)
    (h : f.clientId = none ∨ f.amount_borrowed = none ∨ f.amount_borrowed = some 0 ∨
      f.due_date = none ∨ f.account_id = none ∨
      (f.modality = LoanModality.installment ∧
        (f.installments_details = none ∨ f.installments_details = some []))) :
    handleSubmit f st newId = (st, false) := by
  have hval : validateLoanForm f = false := by
    unfold validateLoanForm
    rcases h with h | h | h | h | h | ⟨h1, h2⟩
    · rw [if_pos (Or.inl h)]
    · rw [if_pos (Or.inr (Or.inl (by rw [h]; rfl)))]
    · rw [if_pos (Or.inr (Or.inl (by rw [h]; rfl)))]
    · rw [if_pos (Or.inr (Or.inr (Or.inl h)))]
    · rw [if_pos (Or.inr (Or.inr (Or.inr h)))]
    · by_cases hfirst : f.clientId = none ∨ f.amount_borrowed.getD 0 = 0 ∨
        f.due_date = none ∨ f.account_id = none
      · rw [if_pos hfirst]
      · rw [if_neg hfirst]
        rcases h2 with h2 | h2
        · rw [if_pos ⟨h1, by rw [h2]; rfl⟩]
        · rw [if_pos ⟨h1, by rw [h2]; rfl⟩]
  unfold handleSubmit
  rw [hval]
  rfl

/-- Witness for C9 (amended): the theorem applied to a concrete form missing
its client, discharging the hypothesis there. -/
theorem create_validation_guard_witness :
    handleSubmit { negativeAmountForm with clientId := none } ⟨[], []⟩ 1 =
      ((⟨[], []⟩ : AppState), false) :=
  create_validation_guard { negativeAmountForm with clientId := none } ⟨[], []⟩ 1
    (Or.inl rfl)

/-- Helper: parsing the serialized form of a local-midnight date gives the
date back (the Brasilia host clock keeps the civil date when converting a
local midnight to UTC). -/
theorem parse_toISO (dt : JSDate) : parseAtMidnight (toISOString dt) = dt := by
  obtain ⟨y, m, d⟩ := dt
  simp only [parseAtMidnight, toISOString]
  congr 1
  omega

/-- Helper: a loan whose modality is not the installment one never raises the
installment-overdue flag of getDynamicStatus. -/
theorem installmentOverdueFlag_of_ne (l : Loan) (today : JSDate)
    (h : l.modality ≠ LoanModality.installment) :
    installmentOverdueFlag l today = false := by
  unfold installmentOverdueFlag
  cases l.installments_details with
  | none => rfl
  | some ds => simp [h]

/-- A concrete monthly-interest loan due Jan 31 2025, used for the C2
counterexample and witness. -/
def monthlyLoanJan31 : Loan :=
  { baseLoan with
    modality := LoanModality.monthly,
    amount_to_receive := 100,
    due_date := ⟨2025, 1, 31, none⟩ }

/-- Counterexample to C2 as stated: the claim requires the interest-only
rollover to advance the due date with month-end clamping (Jan 31 rolls to
Feb 28, never into March), but receivePaymentUpdate advances it by a bare
setMonth, so the due date of a loan due Jan 31 2025 lands on Mar 3 2025
(month index 2), not on Feb 28 2025. -/
theorem interest_only_clamp_counterexample :
    parseAtMidnight (receivePaymentUpdate monthlyLoanJan31 ⟨2025, 1, 20, none⟩ 100 none
        (some PaymentType.interest_only) ⟨2025, 1, 20⟩).due_date = ⟨2025, 2, 3⟩ ∧
    parseAtMidnight (receivePaymentUpdate monthlyLoanJan31 ⟨2025, 1, 20, none⟩ 100 none
        (some PaymentType.interest_only) ⟨2025, 1, 20⟩).due_date ≠ ⟨2025, 1, 28⟩ := by
  constructor
  · rfl
  · decide

/-- C2 (amended): for a monthly-interest loan that is not yet paid, recording
an interest-only payment appends exactly one entry (payment date and amount)
to interest_payments_history, advances due_date by one calendar month using
the bare JS setMonth normalization — the day of month is kept when it exists
in the target month and otherwise overflows into the following month by the
excess (Jan 31 rolls to Mar 3, with no month-end clamping) — recomputes the
stored status via getDynamicStatus against the new due date, and leaves the
loan open: the status is never paid and payment_date is untouched. -/
theorem interest_only_rollover (l : Loan) (paymentDate : ISODateStr) (amountPaid : ℚ)
    (instNo : Option Nat) (today : JSDate)
    (hmod : l.modality = LoanModality.monthly)
    (hstat : l.status ≠ LoanStatus.paid)
    (hm0 : 0 ≤ (parseAtMidnight l.due_date).month)
    (hm1 : (parseAtMidnight l.due_date).month < 12) :
    let r := receivePaymentUpdate l paymentDate amountPaid instNo
      (some PaymentType.interest_only) today
    let p := parseAtMidnight l.due_date
    let ty : Int := if p.month = 11 then p.year + 1 else p.year
    let tm : Int := if p.month = 11 then 0 else p.month + 1
    r.interest_payments_history =
      l.interest_payments_history ++ [⟨paymentDate, amountPaid⟩] ∧
    parseAtMidnight r.due_date =
      (if p.day ≤ daysInMonth ty tm then (⟨ty, tm, p.day⟩ : JSDate)
       else if tm = 11 then ⟨ty + 1, 0, p.day - daysInMonth ty tm⟩
       else ⟨ty, tm + 1, p.day - daysInMonth ty tm⟩) ∧
    r.status =
      (getDynamicStatus { l with due_date := r.due_date } today).effectiveStatus ∧
    r.status ≠ LoanStatus.paid ∧
    r.payment_date = l.payment_date := by
  intro r p ty tm
  have hpdef : p = parseAtMidnight l.due_date := rfl
  have htydef : ty = if p.month = 11 then p.year + 1 else p.year := rfl
  have htmdef : tm = if p.month = 11 then 0 else p.month + 1 := rfl
  rw [← hpdef] at hm0 hm1
  have hbranch : l.modality = LoanModality.monthly ∧
      (some PaymentType.interest_only : Option PaymentType) =
        some PaymentType.interest_only := ⟨hmod, rfl⟩
  have hr : r = { l with
      interest_payments_history :=
        l.interest_payments_history ++ [⟨paymentDate, amountPaid⟩],
      due_date := toISOString (setMonthAdd p (p.month + 1)),
      status := (getDynamicStatus
        { l with due_date := toISOString (setMonthAdd p (p.month + 1)) }
        today).effectiveStatus } := by
    show receivePaymentUpdate l paymentDate amountPaid instNo
      (some PaymentType.interest_only) today = _
    unfold receivePaymentUpdate
    rw [if_pos hbranch]
  have hstatus_open : ∀ due : ISODateStr,
      (getDynamicStatus { l with due_date := due } today).effectiveStatus ≠
        LoanStatus.paid := by
    intro due
    unfold getDynamicStatus
    rw [if_neg (show ¬ ({ l with due_date := due } : Loan).status = LoanStatus.paid
      from hstat)]
    rw [installmentOverdueFlag_of_ne _ _ (by
      show l.modality ≠ LoanModality.installment
      rw [hmod]
      decide)]
    simp only [Bool.false_eq_true, if_false]
    by_cases hneg : epochDay (parseAtMidnight due) - epochDay today < 0
    · simp [hneg]
    · simp [hneg]
  refine ⟨by rw [hr], ?_, by rw [hr], by rw [hr]; exact hstatus_open _, by rw [hr]⟩
  rw [hr]
  show parseAtMidnight (toISOString (setMonthAdd p (p.month + 1))) = _
  rw [parse_toISO]
  unfold setMonthAdd
  by_cases h11 : p.month = 11
  · have hdiv : (p.month + 1) / 12 = 1 := by omega
    have hm12 : (p.month + 1) % 12 = 0 := by omega
    rw [htydef, htmdef]
    simp only [hdiv, hm12, if_pos h11]
  · have hdiv : (p.month + 1) / 12 = 0 := by omega
    have hm12 : (p.month + 1) % 12 = p.month + 1 := by omega
    rw [htydef, htmdef]
    simp only [hdiv, hm12, if_neg h11]
    norm_num

/-- Witness for C2 (amended): the theorem applied to the concrete monthly loan
due Jan 31 2025, discharging the hypotheses there; the due date moves to
Mar 3 2025 and one history entry of amount 100 is appended. -/
theorem interest_only_rollover_witness :
    (receivePaymentUpdate monthlyLoanJan31 ⟨2025, 1, 20, none⟩ 100 none
        (some PaymentType.interest_only) ⟨2025, 1, 20⟩).interest_payments_history =
      monthlyLoanJan31.interest_payments_history ++ [⟨⟨2025, 1, 20, none⟩, 100⟩] ∧
    parseAtMidnight (receivePaymentUpdate monthlyLoanJan31 ⟨2025, 1, 20, none⟩ 100 none
        (some PaymentType.interest_only) ⟨2025, 1, 20⟩).due_date =
      (if (31 : Int) ≤ daysInMonth 2025 1 then (⟨2025, 1, 31⟩ : JSDate)
       else if (1 : Int) = 11 then ⟨2026, 0, 31 - daysInMonth 2025 1⟩
       else ⟨2025, 2, 31 - daysInMonth 2025 1⟩) ∧
    (receivePaymentUpdate monthlyLoanJan31 ⟨2025, 1, 20, none⟩ 100 none
        (some PaymentType.interest_only) ⟨2025, 1, 20⟩).status =
      (getDynamicStatus { monthlyLoanJan31 with
        due_date := (receivePaymentUpdate monthlyLoanJan31 ⟨2025, 1, 20, none⟩ 100 none
          (some PaymentType.interest_only) ⟨2025, 1, 20⟩).due_date }
        ⟨2025, 1, 20⟩).effectiveStatus ∧
    (receivePaymentUpdate monthlyLoanJan31 ⟨2025, 1, 20, none⟩ 100 none
        (some PaymentType.interest_only) ⟨2025, 1, 20⟩).status ≠ LoanStatus.paid ∧
    (receivePaymentUpdate monthlyLoanJan31 ⟨2025, 1, 20, none⟩ 100 none
        (some PaymentType.interest_only) ⟨2025, 1, 20⟩).payment_date =
      monthlyLoanJan31.payment_date :=
  interest_only_rollover monthlyLoanJan31 ⟨2025, 1, 20, none⟩ 100 none ⟨2025, 1, 20⟩
    rfl (by decide) (by decide) (by decide)

/-- Helper: the generation loop produces exactly one installment per
iteration. -/
theorem generateLoop_length (A std : ℚ) (n : Nat) (fd : JSDate) :
    ∀ (r i : Nat) (tot : ℚ), (generateLoop A std n fd r i tot).length = r := by
  intro r
  induction r with
  | zero => intro i tot; rfl
  | succ r ih =>
    intro i tot
    simp only [generateLoop, List.length_cons, ih]

/-- Helper: the j-th element produced by the generation loop started at index
i with totalAllocated i * std: it is numbered i + j + 1, carries the due date
genDueDate fd (i + j), and its amount is the rounded standard amount except
at the final index n - 1, where it is the rounded remainder. -/
theorem generateLoop_get (A std : ℚ) (n : Nat) (fd : JSDate) :
    ∀ (r i j : Nat), i + r = n → j < r →
      (generateLoop A std n fd r i ((i : ℚ) * std)).get? j =
        some ⟨i + j + 1,
          toFixed2 (if i + j = n - 1 then A - ((n - 1 : Nat) : ℚ) * std else std),
          toISOString (genDueDate fd (i + j)), InstStatus.pending, none, none⟩ := by
  intro r
  induction r with
  | zero => intro i j _ hj; omega
  | succ r ih =>
    intro i j hin hj
    cases j with
    | zero =>
      simp only [generateLoop, List.get?]
      by_cases hlast : i = n - 1
      · rw [if_pos hlast, if_pos (by omega : i + 0 = n - 1)]
        have hc : ((i : ℚ)) = ((n - 1 : Nat) : ℚ) := by
          exact_mod_cast congrArg (Nat.cast : Nat → ℚ) hlast
        rw [hc]
        simp
      · rw [if_neg hlast, if_neg (by omega : ¬ (i + 0 = n - 1))]
        simp
    | succ j =>
      have hne : i ≠ n - 1 := by omega
      simp only [generateLoop, List.get?]
      rw [if_neg hne]
      have htot : (i : ℚ) * std + std = ((i + 1 : Nat) : ℚ) * std := by
        push_cast
        ring
      rw [htot]
      have := ih (i + 1) j (by omega) (by omega)
      rw [this]
      have hidx : i + 1 + j = i + (j + 1) := by omega
      rw [hidx]

/-- Helper: the sum of the amounts produced by the generation loop started at
index i with totalAllocated i * std: r - 1 rounded standard amounts plus the
rounded remainder of the final installment. -/
theorem generateLoop_sum (A std : ℚ) (n : Nat) (fd : JSDate) :
    ∀ (r i : Nat), i + r = n → 1 ≤ r →
      ((generateLoop A std n fd r i ((i : ℚ) * std)).map InstallmentDetail.amount).sum =
        ((r - 1 : Nat) : ℚ) * toFixed2 std +
          toFixed2 (A - ((n - 1 : Nat) : ℚ) * std) := by
  intro r
  induction r with
  | zero => intro i _ hr; omega
  | succ r ih =>
    intro i hin _
    by_cases hr0 : r = 0
    · subst hr0
      have hlast : i = n - 1 := by omega
      simp only [generateLoop, List.map_cons, List.map_nil, List.sum_cons, List.sum_nil]
      rw [if_pos hlast]
      have hcast : ((i : ℚ)) = ((n - 1 : Nat) : ℚ) := by
        exact_mod_cast congrArg (Nat.cast : Nat → ℚ) hlast
      rw [hcast]
      norm_num
    · have hne : i ≠ n - 1 := by omega
      simp only [generateLoop, List.map_cons, List.sum_cons]
      rw [if_neg hne, if_neg hne]
      have htot : (i : ℚ) * std + std = ((i + 1 : Nat) : ℚ) * std := by
        push_cast
        ring
      rw [htot, ih (i + 1) (by omega) (by omega)]
      have h1 : ((r + 1 - 1 : Nat) : ℚ) = ((r - 1 : Nat) : ℚ) + 1 := by
        have : r + 1 - 1 = (r - 1) + 1 := by omega
        rw [this]
        push_cast
        ring
      rw [h1]
      ring

/-- Helper: on a whole number of cents, the standard installment amount is the
truncated integer division of the cents by the installment count. -/
theorem standardInstallment_cents (k n : Nat) (hn : 1 ≤ n) :
    standardInstallment ((k : ℚ) / 100) n = ((k / n : Nat) : ℚ) / 100 := by
  unfold standardInstallment
  have hn0 : ((n : ℚ)) ≠ 0 := Nat.cast_ne_zero.mpr (by omega)
  have harg : ((k : ℚ) / 100) / (n : ℚ) * 100 = (k : ℚ) / (n : ℚ) := by
    field_simp
    ring
  rw [harg, Rat.floor_natCast_div_natCast, ← Int.natCast_div, Int.cast_natCast]

/-- Helper: rounding to two decimals fixes every whole number of cents. -/
theorem toFixed2_cents (m : Int) : toFixed2 ((m : ℚ) / 100) = (m : ℚ) / 100 := by
  unfold toFixed2
  have harg : ((m : ℚ) / 100) * 100 + 1 / 2 = (m : ℚ) + 1 / 2 := by
    field_simp
  rw [harg, Int.floor_int_add]
  norm_num

/-- Helper: the Nat-cast form of toFixed2_cents. -/
theorem toFixed2_cents_nat (m : Nat) : toFixed2 ((m : ℚ) / 100) = (m : ℚ) / 100 := by
  have h := toFixed2_cents (m : Int)
  rwa [Int.cast_natCast] at h

/-- C1: for an installment count between 1 and 60 and an amount to receive of
at least one cent that is a whole number of cents (money carries two decimal
digits), the generated schedule has exactly n installments, every installment
except the last carries the standard amount floor(A / n * 100) / 100, the
last carries the remainder A minus the sum of the previous ones, and the
amounts sum to A exactly. -/
theorem installment_sum_invariant (k n : Nat) (A : ℚ) (due : ISODateStr)
    (hA : A = (k : ℚ) / 100) (hk : 1 ≤ k) (hn1 : 1 ≤ n) (hn60 : n ≤ 60) :
    (generateInstallments A n (parseAtMidnight due)).length = n ∧
    (∀ j, j < n - 1 →
      ((generateInstallments A n (parseAtMidnight due)).get? j).map
          InstallmentDetail.amount =
        some (standardInstallment A n)) ∧
    (((generateInstallments A n (parseAtMidnight due)).get? (n - 1)).map
        InstallmentDetail.amount =
      some (A - ((n - 1 : Nat) : ℚ) * standardInstallment A n)) ∧
    ((generateInstallments A n (parseAtMidnight due)).map InstallmentDetail.amount).sum =
      A := by
  have hstd : standardInstallment A n = ((k / n : Nat) : ℚ) / 100 := by
    rw [hA]
    exact standardInstallment_cents k n hn1
  have hstd_fix : toFixed2 (standardInstallment A n) = standardInstallment A n := by
    rw [hstd]
    exact toFixed2_cents_nat (k / n)
  have hlast_fix :
      toFixed2 (A - ((n - 1 : Nat) : ℚ) * standardInstallment A n) =
        A - ((n - 1 : Nat) : ℚ) * standardInstallment A n := by
    have hcast : ((((k : Int) - ((n - 1 : Nat) : Int) * ((k / n : Nat) : Int)) : Int) : ℚ) =
        (k : ℚ) - ((n - 1 : Nat) : ℚ) * ((k / n : Nat) : ℚ) := by
      rw [Int.cast_sub, Int.cast_mul, Int.cast_natCast, Int.cast_natCast, Int.cast_natCast]
    have hrepr : A - ((n - 1 : Nat) : ℚ) * standardInstallment A n =
        ((((k : Int) - ((n - 1 : Nat) : Int) * ((k / n : Nat) : Int)) : Int) : ℚ) / 100 := by
      rw [hstd, hA, hcast]
      ring
    rw [hrepr]
    exact toFixed2_cents _
  have hzero : (0 : ℚ) = ((0 : Nat) : ℚ) * standardInstallment A n := by
    norm_num
  have hgen : generateInstallments A n (parseAtMidnight due) =
      generateLoop A (standardInstallment A n) n (parseAtMidnight due) n 0
        (((0 : Nat) : ℚ) * standardInstallment A n) := by
    unfold generateInstallments
    rw [← hzero]
  refine ⟨?_, ?_, ?_, ?_⟩
  · rw [hgen]
    exact generateLoop_length A (standardInstallment A n) n (parseAtMidnight due) n 0 _
  · intro j hj
    rw [hgen, generateLoop_get A (standardInstallment A n) n (parseAtMidnight due) n 0 j
      (by omega) (by omega)]
    simp only [Option.map_some']
    rw [if_neg (by omega : ¬ (0 + j = n - 1))]
    rw [hstd_fix]
  · rw [hgen, generateLoop_get A (standardInstallment A n) n (parseAtMidnight due) n 0
      (n - 1) (by omega) (by omega)]
    simp only [Option.map_some']
    rw [if_pos (by omega : 0 + (n - 1) = n - 1)]
    rw [hlast_fix]
  · rw [hgen, generateLoop_sum A (standardInstallment A n) n (parseAtMidnight due) n 0
      (by omega) (by omega)]
    rw [hstd_fix, hlast_fix]
    ring

/-- Witness for C1: the theorem applied to 157 cents split into 3
installments, discharging the hypotheses there (the amounts are 0.52, 0.52
and 0.53). -/
theorem installment_sum_invariant_witness :
    (generateInstallments ((157 : ℚ) / 100) 3 (parseAtMidnight ⟨2025, 1, 31, none⟩)).length
        = 3 ∧
    (∀ j, j < 3 - 1 →
      ((generateInstallments ((157 : ℚ) / 100) 3
          (parseAtMidnight ⟨2025, 1, 31, none⟩)).get? j).map InstallmentDetail.amount =
        some (standardInstallment ((157 : ℚ) / 100) 3)) ∧
    (((generateInstallments ((157 : ℚ) / 100) 3
        (parseAtMidnight ⟨2025, 1, 31, none⟩)).get? (3 - 1)).map InstallmentDetail.amount =
      some ((157 : ℚ) / 100 -
        ((3 - 1 : Nat) : ℚ) * standardInstallment ((157 : ℚ) / 100) 3)) ∧
    ((generateInstallments ((157 : ℚ) / 100) 3
        (parseAtMidnight ⟨2025, 1, 31, none⟩)).map InstallmentDetail.amount).sum =
      (157 : ℚ) / 100 :=
  installment_sum_invariant 157 3 ((157 : ℚ) / 100) ⟨2025, 1, 31, none⟩ rfl
    (by decide) (by decide) (by decide)

end KrediApp
